import Mathlib

/-!
Shallow embedding of src/cljpprint.py (a Sublime Text plugin piping Clojure
source through an external formatter and mapping the formatter's stderr
diagnostics back to buffer coordinates), together with theorems settling the
specification's claims about it.

Buffers are lists of characters; subprocess byte streams are modelled as
strings (the plugin encodes and decodes with the view's encoding, which we
take to be the identity on the modelled text).
-/

namespace Cljpprint

/-- A Sublime Text region: a span between two buffer offsets, possibly stated
in reverse order. -/
structure Region where
  a : Nat
  b : Nat
deriving Repr, DecidableEq

/-- Region.begin(): the smaller endpoint. -/
def Region.begin (r : Region) : Nat := min r.a r.b

/-- Region.end(): the larger endpoint (end is a Lean keyword, hence the
underscore). -/
def Region.end_ (r : Region) : Nat := max r.a r.b

/-- The slice of the Sublime view API the plugin uses: a view id, the buffer
text as a list of characters, the associated file name (None for an unsaved
buffer), and whether the view's syntax scores as Clojure/EDN source. -/
structure View where
  id : Nat
  buffer : List Char
  fileName : Option String
  isClojure : Bool
deriving Repr, DecidableEq

/-- view.size(): number of characters in the buffer. -/
def View.size (v : View) : Nat := v.buffer.length

/-- view.rowcol(p): the 0-based row and column of a buffer offset; the row is
the number of newline characters before the offset, the column the distance
to the previous newline. -/
def View.rowcol (v : View) (p : Nat) : Nat × Nat :=
  let pre := v.buffer.take p
  (pre.count '\n', (pre.reverse.takeWhile (fun c => c != '\n')).length)

/-- Offset of the start of the given 0-based row: the position just after the
row-th newline, clamping at the end of the buffer when the row index is past
the last line. -/
def lineStartOffset : List Char → Nat → Nat
  | _, 0 => 0
  | [], _ + 1 => 0
  | c :: cs, r + 1 =>
    if c = '\n' then 1 + lineStartOffset cs r else 1 + lineStartOffset cs (r + 1)

/-- view.text_point(row, col): the buffer offset of a 0-based (row, col) pair;
negative coordinates clamp to 0 and the result clamps to the buffer size, an
idealisation of the editor API that agrees with it on in-range coordinates
(the only ones the plugin's arithmetic produces on matched diagnostics). -/
def View.textPoint (v : View) (row col : Int) : Nat :=
  min (lineStartOffset v.buffer row.toNat + col.toNat) v.buffer.length

/-- view.line(p).end(): offset of the end of the line containing p, i.e. the
position of the terminating newline, or the buffer end on the last line. -/
def View.lineEnd (v : View) (p : Nat) : Nat :=
  p + ((v.buffer.drop p).takeWhile (fun c => c != '\n')).length

/-- view.substr(region): the text of the region. -/
def View.substr (v : View) (r : Region) : String :=
  String.mk ((v.buffer.drop r.begin).take (r.end_ - r.begin))

/-- view.replace(edit, region, s): splice s over the region's span. -/
def View.replace (v : View) (r : Region) (s : String) : View :=
  { v with buffer := v.buffer.take r.begin ++ s.toList ++ v.buffer.drop r.end_ }

/-- The line-boundary characters recognised by Python's str.splitlines. -/
def isLineBoundary (c : Char) : Bool :=
  c == '\n' || c == '\r' || c == '\x0b' || c == '\x0c' ||
  c == '\x1c' || c == '\x1d' || c == '\x1e' || c == '\x85' ||
  c == '\u2028' || c == '\u2029'

/-- Worker for pySplitlines: accumulates the current line in reverse; a
carriage return followed by a newline counts as a single boundary, and a
trailing boundary produces no empty final line. -/
def pySplitlinesAux : List Char → List Char → List String
  | [], acc => if acc.isEmpty then [] else [String.mk acc.reverse]
  | '\r' :: '\n' :: rest, acc => String.mk acc.reverse :: pySplitlinesAux rest []
  | c :: rest, acc =>
    if isLineBoundary c then String.mk acc.reverse :: pySplitlinesAux rest []
    else pySplitlinesAux rest (c :: acc)

/-- Python str.splitlines(). -/
def pySplitlines (s : String) : List String := pySplitlinesAux s.toList []

/-- Does pat occur at the front of the second list? -/
def patAtFront : List Char → List Char → Bool
  | [], _ => true
  | _ :: _, [] => false
  | p :: ps, c :: cs => p == c && patAtFront ps cs

/-- Worker for pyReplace: while the skip counter is positive the characters of
an already-replaced occurrence are being consumed; at zero, a fresh occurrence
of the pattern is replaced and the rest of its characters scheduled for
skipping. -/
def pyReplaceAux : List Char → List Char → List Char → Nat → List Char
  | [], _, _, _ => []
  | _ :: cs, pat, repl, k + 1 => pyReplaceAux cs pat repl k
  | c :: cs, pat, repl, 0 =>
    if pat ≠ [] ∧ patAtFront pat (c :: cs) then
      repl ++ pyReplaceAux cs pat repl (pat.length - 1)
    else c :: pyReplaceAux cs pat repl 0

/-- Python str.replace for a non-empty pattern: each leftmost, non-overlapping
occurrence is replaced (the plugin's only pattern, "<standard input>", is never
empty; for an empty pattern Python would instead interleave the replacement,
and this model is the identity). -/
def pyReplace (s pat repl : List Char) : List Char := pyReplaceAux s pat repl 0

/-- Whitespace characters matched by a backslash-s in a Python str regular
expression: the ASCII whitespace set plus Unicode whitespace (only the plain
space actually occurs in the formatter's diagnostics). -/
def isPySpace (c : Char) : Bool :=
  c == ' ' || c == '\t' || c == '\n' || c == '\r' || c == '\x0b' || c == '\x0c' ||
  c == '\x1c' || c == '\x1d' || c == '\x1e' || c == '\x1f' || c == '\x85' || c == '\xa0' ||
  c == '\u1680' || c == '\u2000' || c == '\u2001' || c == '\u2002' || c == '\u2003' ||
  c == '\u2004' || c == '\u2005' || c == '\u2006' || c == '\u2007' || c == '\u2008' ||
  c == '\u2009' || c == '\u200a' || c == '\u2028' || c == '\u2029' || c == '\u202f' ||
  c == '\u205f' || c == '\u3000'

/-- Numeric value of a digit run, as Python's int() computes it. -/
def digitsVal (ds : List Char) : Nat :=
  ds.foldl (fun acc c => acc * 10 + (c.toNat - '0'.toNat)) 0

/-- One application, via re.match, of the plugin's compiled pattern
"<stdin>:(\\d+):(\\d+):\\s+(.*)\\Z" to a single line (lines come from
splitlines, so they contain no newline and the trailing anchor is implied by
the greedy final group). Returns the parsed (row, col, message) triple: a
literal "<stdin>:" tag, a non-empty digit run, a colon, a second digit run, a
colon, at least one whitespace character, then the message. ASCII digits model
the pattern's digit class; the formatter emits only those. -/
def matchLine (line : String) : Option (Nat × Nat × String) :=
  let cs := line.toList
  let tag := "<stdin>:".toList
  if cs.take tag.length = tag then
    let r1 := cs.drop tag.length
    let d1 := r1.takeWhile Char.isDigit
    match r1.drop d1.length with
    | ':' :: r2 =>
      let d2 := r2.takeWhile Char.isDigit
      match r2.drop d2.length with
      | ':' :: r3 =>
        let ws := r3.takeWhile isPySpace
        if d1.isEmpty || d2.isEmpty || ws.isEmpty then none
        else some (digitsVal d1, digitsVal d2, String.mk (r3.drop ws.length))
      | _ => none
    | _ => none
  else none

/-- os.path.basename, POSIX flavour: the part after the last slash. -/
def basename (s : String) : String :=
  String.mk ((s.toList.reverse.takeWhile (fun c => c != '/')).reverse)

/-- The Python exceptions the embedding distinguishes: calling
os.path.basename(None) — which happens when an unsaved view has no file
name — raises TypeError. -/
inductive PyExn where
  | typeError
deriving Repr, DecidableEq

/-- One parsed diagnostic (class Error): message text, highlighted region,
0-based row and column (Python ints, so they may go negative on a pathological
"0"-numbered diagnostic), and the display file name. -/
structure Error where
  text : String
  region : Region
  row : Int
  col : Int
  filename : String
deriving Repr, DecidableEq

/-- The loop body of Error.parse_stderr for one stderr line: on a pattern
match, convert row and column to 0-based, offset the column by the region's
starting column when the diagnostic lies on the region's first line, offset
the row by the region's starting row, and highlight from the resulting point
to the end of that buffer line. Non-matching lines yield nothing. -/
def lineToError (region : Region) (v : View) (fn : String) (raw : String) : Option Error :=
  match matchLine raw with
  | none => none
  | some (r, c, text) =>
    let regionRow := (v.rowcol region.begin).1
    let regionCol := (v.rowcol region.begin).2
    let row : Int := (r : Int) - 1
    let col : Int := (c : Int) - 1
    let col : Int := if row = 0 then col + (regionCol : Int) else col
    let row : Int := row + (regionRow : Int)
    let a := v.textPoint row col
    let b := v.lineEnd a
    some { text := text, region := ⟨a, b⟩, row := row, col := col, filename := fn }

/-- Error.parse_stderr(stderr, region, view): take the basename of the view's
file name (raising TypeError when the view has none), cosmetically replace the
"<standard input>" placeholder with it, split the stderr into lines and keep
the diagnostics of the lines matching the pattern. -/
def Error.parse_stderr (stderr : String) (region : Region) (v : View) :
    Except PyExn (List Error) :=
  match v.fileName with
  | none => Except.error PyExn.typeError
  | some name =>
    let fn := basename name
    let stderr2 := String.mk (pyReplace stderr.toList ("<standard input>".toList) fn.toList)
    Except.ok ((pySplitlines stderr2).filterMap (lineToError region v fn))

/-- A Command (class Command) bound to one external process: run(stdin) feeds
the text to the process and returns its standard output, standard error and
return code. The process itself is an opaque collaborator, so a command is
modelled by that input/output function. -/
structure CommandBehavior where
  run : String → String × String × Int

/-- What one call of Formatter.format can do: return the decoded replacement
text, raise FormatterError carrying the parsed diagnostics (which have also
been displayed), or propagate some other Python exception. -/
inductive FormatOutcome where
  | ok (text : String)
  | fail (errors : List Error)
  | exn (e : PyExn)
deriving Repr

/-- The command loop of Formatter.format: pipe the code through each command
in turn; as soon as one writes to stderr or exits non-zero, parse its stderr
(a TypeError from the parse propagates), display the diagnostics and raise
FormatterError with them. -/
def formatChain (v : View) (region : Region) : List CommandBehavior → String → FormatOutcome
  | [], code => FormatOutcome.ok code
  | cmd :: rest, code =>
    match cmd.run code with
    | (out, stderr, returnCode) =>
      if stderr ≠ "" ∨ returnCode ≠ 0 then
        match Error.parse_stderr stderr region v with
        | Except.error e => FormatOutcome.exn e
        | Except.ok errors => FormatOutcome.fail errors
      else formatChain v region rest out

/-- Formatter.format(region): clear prior status, take the region's text and
run the command chain on it. -/
def Formatter.format (cmds : List CommandBehavior) (v : View) (region : Region) :
    FormatOutcome :=
  formatChain v region cmds (v.substr region)

/-- The module-level view_errors table: view id to stored diagnostics. -/
abbrev ViewErrorsTable := List (Nat × List Error)

/-- view_errors.get(k): first binding of the key, if any. -/
def lookupKey (k : Nat) : ViewErrorsTable → Option (List Error)
  | [] => none
  | (k', x) :: rest => if k' = k then some x else lookupKey k rest

/-- del view_errors[k] (a no-op when the key is absent, matching the guarded
del in run_formatter). -/
def eraseKey (k : Nat) (m : ViewErrorsTable) : ViewErrorsTable :=
  m.filter (fun p => p.1 != k)

/-- view_errors[k] = x, on a table not containing k. -/
def insertKey (k : Nat) (x : List Error) (m : ViewErrorsTable) : ViewErrorsTable :=
  (k, x) :: m

/-- Result of the region loop of run_formatter: the view after the performed
replacements, stopping at the first region whose format raises. -/
inductive RunLoopResult where
  | ok (v : View)
  | fail (v : View) (errors : List Error)
  | exn (v : View) (e : PyExn)
deriving Repr

/-- The loop of run_formatter: format each region in turn and replace its span
with the result; a FormatterError or other exception aborts the loop with the
buffer as modified so far. -/
def runRegions (cmds : List CommandBehavior) : List Region → View → RunLoopResult
  | [], v => RunLoopResult.ok v
  | r :: rs, v =>
    match Formatter.format cmds v r with
    | FormatOutcome.ok txt => runRegions cmds rs (v.replace r txt)
    | FormatOutcome.fail errs => RunLoopResult.fail v errs
    | FormatOutcome.exn e => RunLoopResult.exn v e

/-- Observable outcome of run_formatter: the final view, the view_errors
table, whether sublime.error_message showed a blocking modal (the catch-all
except branch), and the diagnostics displayed in the error panel and as
squiggly regions by _show_errors, if any. -/
structure RunOutcome where
  view : View
  viewErrors : ViewErrorsTable
  modalShown : Bool
  displayedErrors : Option (List Error)
deriving Repr

/-- run_formatter(edit, view, regions): drop any stored errors for the view,
run the region loop, and on FormatterError store the new diagnostics; any
other exception is shown verbatim as a modal message. -/
def run_formatter (cmds : List CommandBehavior) (v : View) (regions : List Region)
    (ve : ViewErrorsTable) : RunOutcome :=
  let ve1 := eraseKey v.id ve
  match runRegions cmds regions v with
  | RunLoopResult.ok v' =>
    { view := v', viewErrors := ve1, modalShown := false, displayedErrors := none }
  | RunLoopResult.fail v' errs =>
    { view := v', viewErrors := insertKey v.id errs ve1, modalShown := false,
      displayedErrors := some errs }
  | RunLoopResult.exn v' _ =>
    { view := v', viewErrors := ve1, modalShown := true, displayedErrors := none }

/-- The region-selection logic of CljpprintCommand.run: when the
format_selected setting is true, the view's non-empty selections; when that
list is empty, or the setting is false (regions is then still None), the whole
buffer as a single region. -/
def selectRegions (formatSelected : Bool) (sel : List Region) (size : Nat) : List Region :=
  let regions := if formatSelected then sel.filter (fun r => r.begin != r.end_) else []
  if regions.isEmpty then [⟨0, size⟩] else regions

/-- CljpprintCommand.run(edit): nothing happens unless the view is Clojure/EDN
source; otherwise run_formatter over the selected regions. -/
def CljpprintCommand.run (formatSelected : Bool) (cmds : List CommandBehavior)
    (v : View) (sel : List Region) (ve : ViewErrorsTable) : RunOutcome :=
  if v.isClojure then run_formatter cmds v (selectRegions formatSelected sel v.size) ve
  else { view := v, viewErrors := ve, modalShown := false, displayedErrors := none }

/-- Effect of a view-closure event on the view_errors table. CljPpprintListener
(src/cljpprint.py) defines only on_hover and on_pre_save; it has no on_close
(or on_pre_close) handler, so closing a view runs no plugin code at all and
the table is left exactly as it was. -/
def onCloseViewErrors (_viewId : Nat) (ve : ViewErrorsTable) : ViewErrorsTable := ve

/-- The popup contents of CljPpprintListener._show_errors_for_row: on hovering
text at the given row, the stored errors for the view filtered to that row;
the popup is shown only when the view is Clojure/EDN source and the filtered
list is non-empty. -/
def showErrorsForRow (v : View) (row : Int) (ve : ViewErrorsTable) : List Error :=
  if v.isClojure then
    match lookupKey v.id ve with
    | none => []
    | some errors => if errors.isEmpty then [] else errors.filter (fun e => e.row == row)
  else []

/-- The Error value the parse loop builds from a matched line with raw row r,
raw column c and message msg: a name for the right-hand side of the lemma
lineToError_matched below, which proves it is what lineToError produces. -/
def mkMatchedError (region : Region) (v : View) (fn : String) (r c : Nat) (msg : String) :
    Error :=
  let row : Int := ((r : Int) - 1) + ((v.rowcol region.begin).1 : Int)
  let col : Int := if ((r : Int) - 1) = 0
    then ((c : Int) - 1) + ((v.rowcol region.begin).2 : Int)
    else (c : Int) - 1
  { text := msg, region := ⟨v.textPoint row col, v.lineEnd (v.textPoint row col)⟩,
    row := row, col := col, filename := fn }

/-! Concrete instances used by witnesses and counterexamples. -/

/-- A pass-through formatter command: identity output, no stderr, exit 0. -/
def cmdNoop : CommandBehavior := ⟨fun s => (s, "", 0)⟩

/-- A command that always fails with unparseable stderr. -/
def cmdFail : CommandBehavior := ⟨fun s => (s, "oops", 1)⟩

/-- A command that appends a bang and succeeds. -/
def cmdBang : CommandBehavior := ⟨fun s => (s ++ "!", "", 0)⟩

/-- A command that always fails with one well-formed diagnostic line. -/
def cmdDiag : CommandBehavior := ⟨fun _ => ("", "<stdin>:1:1: boom", 1)⟩

/-- A command that rewrites the input "a" to "XY" and fails on anything else. -/
def cmdMixed : CommandBehavior :=
  ⟨fun s => if s = "a" then ("XY", "", 0) else ("", "bad", 1)⟩

/-- A two-character saved Clojure view. -/
def viewAB : View :=
  { id := 0, buffer := "ab".toList, fileName := some "f.clj", isClojure := true }

/-- A two-line saved Clojure view. -/
def viewCd : View :=
  { id := 2, buffer := "ab\ncd".toList, fileName := some "t.clj", isClojure := true }

/-- An unsaved Clojure view: no file name. -/
def viewNoFile : View :=
  { id := 9, buffer := "ab".toList, fileName := none, isClojure := true }

/-- A saved Clojure view whose offset 10 sits at row 10, column 0. -/
def viewTen : View :=
  { id := 1, buffer := ("\n\n\n\n\n\n\n\n\n\n(foo\n bar\n baz)\nrest").toList,
    fileName := some "core.clj", isClojure := true }

/-- A stored diagnostic used as prior view_errors content. -/
def errD : Error := ⟨"m", ⟨0, 0⟩, 0, 0, "f"⟩

/-- The diagnostic parsed from "<stdin>:1:3: boom" against a region of viewCd
starting at row 0, column 1. -/
def err2W : Error := ⟨"boom", ⟨3, 5⟩, 0, 3, "t.clj"⟩

/-- The diagnostic parsed from "<stdin>:3:5: Unmatched delimiter" against a
region of viewTen starting at row 10, column 0. -/
def err3W : Error := ⟨"Unmatched delimiter", ⟨24, 25⟩, 12, 4, "core.clj"⟩

/-! General lemmas about the embedding. -/

/-- The characters of a string built from a character list. -/
theorem mk_toList (l : List Char) : (String.mk l).toList = l := rfl

/-- A region's begin never exceeds its end. -/
theorem Region.begin_le_end_ (r : Region) : r.begin ≤ r.end_ := min_le_max

/-- Splicing a list back between its own take and drop restores the list. -/
theorem take_slice_drop (l : List Char) (m M : Nat) (h : m ≤ M) :
    l.take m ++ ((l.drop m).take (M - m) ++ l.drop M) = l := by
  have h2 : l.drop M = (l.drop m).drop (M - m) := by
    rw [List.drop_drop]
    congr 1
    omega
  rw [h2, List.take_append_drop, List.take_append_drop]

/-- Replacing a region with its own text leaves the buffer unchanged. -/
theorem View.replace_substr_self (v : View) (r : Region) :
    (v.replace r (v.substr r)).buffer = v.buffer := by
  simp only [View.replace, View.substr, mk_toList, List.append_assoc]
  exact take_slice_drop v.buffer r.begin r.end_ (Region.begin_le_end_ r)

/-- Looking a key up after deleting it finds nothing. -/
theorem lookupKey_eraseKey (k : Nat) (m : ViewErrorsTable) :
    lookupKey k (eraseKey k m) = none := by
  induction m with
  | nil => rfl
  | cons p rest ih =>
    by_cases h : p.1 = k
    · simpa [eraseKey, List.filter_cons, h] using ih
    · simpa [eraseKey, List.filter_cons, h, lookupKey] using ih

/-- Looking a key up right after storing it finds the stored value. -/
theorem lookupKey_insertKey (k : Nat) (x : List Error) (m : ViewErrorsTable) :
    lookupKey k (insertKey k x m) = some x := by
  simp [insertKey, lookupKey]

/-- parse_stderr on a saved view: the placeholder-replaced stderr is split
into lines and filtered through the per-line parser. -/
theorem parse_stderr_eq (stderr : String) (region : Region) (v : View) (name : String)
    (hf : v.fileName = some name) :
    Error.parse_stderr stderr region v = Except.ok
      ((pySplitlines (String.mk (pyReplace stderr.toList ("<standard input>".toList)
          (basename name).toList))).filterMap (lineToError region v (basename name))) := by
  simp only [Error.parse_stderr, hf]

/-- The error built from a line matching the pattern, with the raw groups
made explicit. -/
theorem lineToError_matched (region : Region) (v : View) (fn raw : String)
    (r c : Nat) (msg : String) (hm : matchLine raw = some (r, c, msg)) :
    lineToError region v fn raw = some (mkMatchedError region v fn r c msg) := by
  simp only [lineToError, hm, mkMatchedError]

/-! Claim theorems. -/

/-- C4: running the formatter over a region with a single no-op command
(output identical to input, exit 0, empty stderr) leaves the buffer text
unchanged and removes any previously stored error list for the view from
view_errors (and no modal error is shown). -/
theorem noop_roundtrip (cmd : CommandBehavior) (v : View) (r : Region)
    (ve : ViewErrorsTable) (hcmd : ∀ s, cmd.run s = (s, "", 0)) :
    (run_formatter [cmd] v [r] ve).view.buffer = v.buffer ∧
    lookupKey v.id (run_formatter [cmd] v [r] ve).viewErrors = none ∧
    (run_formatter [cmd] v [r] ve).modalShown = false := by
  have hchain : Formatter.format [cmd] v r = FormatOutcome.ok (v.substr r) := by
    simp [Formatter.format, formatChain, hcmd]
  have hloop : runRegions [cmd] [r] v = RunLoopResult.ok (v.replace r (v.substr r)) := by
    simp [runRegions, hchain]
  refine ⟨?_, ?_, ?_⟩ <;>
    simp [run_formatter, hloop, View.replace_substr_self, lookupKey_eraseKey]

/-- Witness for C4: the no-op command on the whole two-character buffer, with
a stale error entry for the view that the run removes. -/
theorem noop_roundtrip_witness :
    (run_formatter [cmdNoop] viewAB [⟨0, 2⟩] [(0, [errD]), (3, [])]).view.buffer =
      viewAB.buffer ∧
    lookupKey viewAB.id
      (run_formatter [cmdNoop] viewAB [⟨0, 2⟩] [(0, [errD]), (3, [])]).viewErrors = none ∧
    (run_formatter [cmdNoop] viewAB [⟨0, 2⟩] [(0, [errD]), (3, [])]).modalShown = false :=
  noop_roundtrip cmdNoop viewAB ⟨0, 2⟩ [(0, [errD]), (3, [])] (fun _ => rfl)

/-- C5: a command exiting non-zero whose stderr has no line matching the
diagnostic pattern yields an empty parsed error list, yet the operation still
fails: the FormatterError path stores the (empty) list in view_errors, the
error display runs with it, and the buffer region is not replaced. -/
theorem unparseable_stderr_fails_empty (cmd : CommandBehavior) (v : View) (r : Region)
    (ve : ViewErrorsTable) (f out err : String) (rc : Int)
    (hf : v.fileName = some f)
    (hrun : cmd.run (v.substr r) = (out, err, rc))
    (hrc : rc ≠ 0)
    (hnm : ∀ raw ∈ pySplitlines (String.mk (pyReplace err.toList ("<standard input>".toList)
            (basename f).toList)), matchLine raw = none) :
    Error.parse_stderr err r v = Except.ok [] ∧
    (run_formatter [cmd] v [r] ve).view.buffer = v.buffer ∧
    lookupKey v.id (run_formatter [cmd] v [r] ve).viewErrors = some [] ∧
    (run_formatter [cmd] v [r] ve).displayedErrors = some [] := by
  have hparse : Error.parse_stderr err r v = Except.ok [] := by
    rw [parse_stderr_eq err r v f hf]
    congr 1
    rw [List.filterMap_eq_nil_iff]
    intro raw hraw
    simp [lineToError, hnm raw hraw]
  have hchain : Formatter.format [cmd] v r = FormatOutcome.fail [] := by
    simp only [Formatter.format, formatChain, hrun]
    rw [if_pos (Or.inr hrc), hparse]
  have hloop : runRegions [cmd] [r] v = RunLoopResult.fail v [] := by
    simp [runRegions, hchain]
  refine ⟨hparse, ?_, ?_, ?_⟩ <;>
    simp [run_formatter, hloop, lookupKey_insertKey]

/-- Witness for C5: a command printing "oops" on stderr and exiting 1, on a
saved two-character view. -/
theorem unparseable_stderr_fails_empty_witness :
    Error.parse_stderr "oops" ⟨0, 2⟩ viewAB = Except.ok [] ∧
    (run_formatter [cmdFail] viewAB [⟨0, 2⟩] []).view.buffer = viewAB.buffer ∧
    lookupKey viewAB.id (run_formatter [cmdFail] viewAB [⟨0, 2⟩] []).viewErrors = some [] ∧
    (run_formatter [cmdFail] viewAB [⟨0, 2⟩] []).displayedErrors = some [] :=
  unparseable_stderr_fails_empty cmdFail viewAB ⟨0, 2⟩ [] "f.clj" "ab" "oops" 1
    rfl rfl (by decide) (by decide)

/-- C6: in a chain of two commands where the first succeeds (exit 0, empty
stderr) and the second fails, only the second command's stderr is parsed into
the reported diagnostics and the buffer keeps its original text — it is not
replaced with the first command's intermediate output. -/
theorem chain_second_fails (c1 c2 : CommandBehavior) (v : View) (r : Region)
    (ve : ViewErrorsTable) (f mid out err : String) (rc : Int)
    (hf : v.fileName = some f)
    (h1 : c1.run (v.substr r) = (mid, "", 0))
    (h2 : c2.run mid = (out, err, rc))
    (hfail : err ≠ "" ∨ rc ≠ 0) :
    ∃ errs, Error.parse_stderr err r v = Except.ok errs ∧
      run_formatter [c1, c2] v [r] ve =
        { view := v, viewErrors := insertKey v.id errs (eraseKey v.id ve),
          modalShown := false, displayedErrors := some errs } := by
  have hp := parse_stderr_eq err r v f hf
  refine ⟨_, hp, ?_⟩
  have hstep2 : formatChain v r [c2] mid = FormatOutcome.fail
      ((pySplitlines (String.mk (pyReplace err.toList ("<standard input>".toList)
        (basename f).toList))).filterMap (lineToError r v (basename f))) := by
    simp only [formatChain, h2]
    rw [if_pos hfail, hp]
  have hchain : Formatter.format [c1, c2] v r = FormatOutcome.fail
      ((pySplitlines (String.mk (pyReplace err.toList ("<standard input>".toList)
        (basename f).toList))).filterMap (lineToError r v (basename f))) := by
    simp only [Formatter.format, formatChain, h1]
    rw [if_neg (by simp)]
    exact hstep2
  have hloop : runRegions [c1, c2] [r] v = RunLoopResult.fail v
      ((pySplitlines (String.mk (pyReplace err.toList ("<standard input>".toList)
        (basename f).toList))).filterMap (lineToError r v (basename f))) := by
    simp [runRegions, hchain]
  simp [run_formatter, hloop]

/-- Witness for C6: an appending first command and a second command that
fails with one well-formed diagnostic, on a saved two-character view. -/
theorem chain_second_fails_witness :
    ∃ errs, Error.parse_stderr "<stdin>:1:1: boom" ⟨0, 1⟩ viewAB = Except.ok errs ∧
      run_formatter [cmdBang, cmdDiag] viewAB [⟨0, 1⟩] [] =
        { view := viewAB, viewErrors := insertKey viewAB.id errs (eraseKey viewAB.id []),
          modalShown := false, displayedErrors := some errs } :=
  chain_second_fails cmdBang cmdDiag viewAB ⟨0, 1⟩ [] "f.clj" "a!" ""
    "<stdin>:1:1: boom" 1 rfl rfl rfl (Or.inl (by decide))

/-- C7 counterexample: a two-region run in which the first region formats
successfully (its text "a" becomes "XY") and the second fails. A
FormatterError is recorded in view_errors, yet the buffer has changed from
"ab" to "XYb": the first region was already replaced, so failure does not
keep the buffer unmodified across a multi-region run. -/
theorem multi_region_partial_modify :
    (run_formatter [cmdMixed] viewAB [⟨0, 1⟩, ⟨1, 2⟩] []).viewErrors = [(0, [])] ∧
    (run_formatter [cmdMixed] viewAB [⟨0, 1⟩, ⟨1, 2⟩] []).view.buffer = "XYb".toList ∧
    viewAB.buffer = "ab".toList ∧
    "XYb".toList ≠ "ab".toList :=
  ⟨rfl, rfl, rfl, by decide⟩

/-- C7 (amended): if a command invocation fails while formatting, the failing
region and everything after it are not replaced; in a single-region run
(FormatterError recorded in view_errors) the buffer is therefore entirely
unmodified. Regions formatted successfully earlier in a multi-region run,
however, have already been replaced by then. -/
theorem single_region_failure_atomic (cmds : List CommandBehavior) (v : View)
    (r : Region) (ve : ViewErrorsTable)
    (h : (lookupKey v.id (run_formatter cmds v [r] ve).viewErrors).isSome) :
    (run_formatter cmds v [r] ve).view.buffer = v.buffer := by
  cases hfmt : Formatter.format cmds v r with
  | ok txt => simp [run_formatter, runRegions, hfmt, lookupKey_eraseKey] at h
  | fail errs => simp [run_formatter, runRegions, hfmt]
  | exn e => simp [run_formatter, runRegions, hfmt, lookupKey_eraseKey] at h

/-- Witness for C7 (amended): a single-region run with an always-failing
command leaves the buffer as it was. -/
theorem single_region_failure_atomic_witness :
    (run_formatter [cmdFail] viewAB [⟨0, 2⟩] []).view.buffer = viewAB.buffer :=
  single_region_failure_atomic [cmdFail] viewAB ⟨0, 2⟩ [] (by decide)

/-- C8 counterexample: the listener defines no close handler, so after a
view-closure event the stored entry for the closed view is still present,
contradicting the claim that view_errors no longer contains it. -/
theorem close_keeps_entry :
    lookupKey 4 (onCloseViewErrors 4 [(4, [errD])]) = some [errD] := rfl

/-- C8 (amended): the stored errors for a view are discarded on every
subsequent format attempt — after run_formatter the table holds an entry for
the view exactly when this run itself raised FormatterError, never the prior
entry — but nothing removes them when the view is closed: the plugin has no
close handler, so a view-closure event leaves the table unchanged. -/
theorem stored_errors_lifecycle (cmds : List CommandBehavior) (v : View)
    (regions : List Region) (ve : ViewErrorsTable) :
    (lookupKey v.id (run_formatter cmds v regions ve).viewErrors =
      match runRegions cmds regions v with
      | RunLoopResult.fail _ errs => some errs
      | _ => none) ∧
    onCloseViewErrors v.id (run_formatter cmds v regions ve).viewErrors =
      (run_formatter cmds v regions ve).viewErrors := by
  constructor
  · cases hres : runRegions cmds regions v <;>
      simp [run_formatter, hres, lookupKey_eraseKey, lookupKey_insertKey]
  · rfl

/-- C9: with format_selected true, the regions the command formats are
exactly the view's non-empty selections; when every selection is empty (in
particular when there are none), the single whole-buffer region is used
instead. -/
theorem format_selected_regions (sel : List Region) (size : Nat) (r : Region) :
    r ∈ selectRegions true sel size ↔
      ((r ∈ sel ∧ r.begin ≠ r.end_) ∨
        ((∀ s ∈ sel, s.begin = s.end_) ∧ r = ⟨0, size⟩)) := by
  simp only [selectRegions]
  by_cases hemp : sel.filter (fun q => q.begin != q.end_) = []
  · have hall : ∀ s ∈ sel, s.begin = s.end_ := by
      intro s hs
      have := List.filter_eq_nil_iff.mp hemp s hs
      simpa using this
    rw [if_pos (by simp [hemp, List.isEmpty_iff])]
    simp only [List.mem_singleton]
    constructor
    · intro h
      exact Or.inr ⟨hall, h⟩
    · rintro (⟨hmem, hne⟩ | ⟨_, heq⟩)
      · exact absurd (hall r hmem) hne
      · exact heq
  · rw [if_neg (by simpa [List.isEmpty_iff] using hemp)]
    rw [if_true, List.mem_filter]
    constructor
    · rintro ⟨hmem, hne⟩
      exact Or.inl ⟨hmem, by simpa using hne⟩
    · rintro (⟨hmem, hne⟩ | ⟨hall, _⟩)
      · exact ⟨hmem, by simpa using hne⟩
      · exact absurd (List.filter_eq_nil_iff.mpr (fun q hq => by simp [hall q hq])) hemp

/-- C10: on a view with no file name, a failing command makes parse_stderr
raise TypeError via os.path.basename(None): no diagnostics are parsed, the
error panel and regions are never shown, view_errors keeps no entry for the
view, the buffer is untouched, and the top-level handler shows the traceback
as a blocking modal message. -/
theorem no_filename_typeerror (cmd : CommandBehavior) (v : View) (r : Region)
    (ve : ViewErrorsTable) (out err : String) (rc : Int)
    (hf : v.fileName = none)
    (hrun : cmd.run (v.substr r) = (out, err, rc))
    (hfail : err ≠ "" ∨ rc ≠ 0) :
    Error.parse_stderr err r v = Except.error PyExn.typeError ∧
    (run_formatter [cmd] v [r] ve).modalShown = true ∧
    (run_formatter [cmd] v [r] ve).displayedErrors = none ∧
    lookupKey v.id (run_formatter [cmd] v [r] ve).viewErrors = none ∧
    (run_formatter [cmd] v [r] ve).view.buffer = v.buffer := by
  have hparse : Error.parse_stderr err r v = Except.error PyExn.typeError := by
    simp [Error.parse_stderr, hf]
  have hchain : Formatter.format [cmd] v r = FormatOutcome.exn PyExn.typeError := by
    simp only [Formatter.format, formatChain, hrun]
    rw [if_pos hfail, hparse]
  have hloop : runRegions [cmd] [r] v = RunLoopResult.exn v PyExn.typeError := by
    simp [runRegions, hchain]
  refine ⟨hparse, ?_, ?_, ?_, ?_⟩ <;>
    simp [run_formatter, hloop, lookupKey_eraseKey]

/-- Witness for C10: an unsaved view and a command failing with stderr
"oops"; a stale entry under another view id is untouched, the modal fires. -/
theorem no_filename_typeerror_witness :
    Error.parse_stderr "oops" ⟨0, 2⟩ viewNoFile = Except.error PyExn.typeError ∧
    (run_formatter [cmdFail] viewNoFile [⟨0, 2⟩] [(9, [errD])]).modalShown = true ∧
    (run_formatter [cmdFail] viewNoFile [⟨0, 2⟩] [(9, [errD])]).displayedErrors = none ∧
    lookupKey viewNoFile.id
      (run_formatter [cmdFail] viewNoFile [⟨0, 2⟩] [(9, [errD])]).viewErrors = none ∧
    (run_formatter [cmdFail] viewNoFile [⟨0, 2⟩] [(9, [errD])]).view.buffer =
      viewNoFile.buffer :=
  no_filename_typeerror cmdFail viewNoFile ⟨0, 2⟩ [(9, [errD])] "ab" "oops" 1
    rfl rfl (Or.inr (by decide))

/-- C1 counterexample: on a view whose file is core.clj with a region starting
at buffer row 10, column 0, the stderr line tagged "<standard input>" produces
no Error at all — the placeholder is replaced by the file name before
matching, and the compiled pattern only matches the tag "<stdin>" — so the
output is not the claimed single Error with row 12 and col 4. -/
theorem standard_input_tag_no_error :
    Error.parse_stderr "<standard input>:3:5: Unmatched delimiter" ⟨10, 25⟩ viewTen =
      Except.ok [] ∧
    viewTen.rowcol (Region.begin ⟨10, 25⟩) = (10, 0) ∧
    (Except.ok [] : Except PyExn (List Error)) ≠ Except.ok [err3W] := by
  refine ⟨rfl, rfl, fun h => ?_⟩
  simpa using Except.ok.inj h

/-- C1 (amended): for the stderr line "<stdin>:3:5: Unmatched delimiter" — the
tag the compiled pattern actually expects; a line tagged "<standard input>"
matches nothing and contributes no Error — and a region starting at buffer
row 10, column 0 of a view on the file core.clj, parse_stderr produces
exactly one Error whose row is 12 and whose col is 4. -/
theorem stdin_tag_one_error (v : View) (region : Region)
    (hf : v.fileName = some "core.clj")
    (hrc : v.rowcol region.begin = (10, 0)) :
    ∃ e, Error.parse_stderr "<stdin>:3:5: Unmatched delimiter" region v = Except.ok [e] ∧
      e.row = 12 ∧ e.col = 4 ∧ e.text = "Unmatched delimiter" ∧
      e.filename = "core.clj" := by
  have h1 : ((v.rowcol region.begin).1 : Int) = 10 := by rw [hrc]; norm_num
  have hpe := parse_stderr_eq "<stdin>:3:5: Unmatched delimiter" region v "core.clj" hf
  have hls : pySplitlines (String.mk (pyReplace ("<stdin>:3:5: Unmatched delimiter").toList
      ("<standard input>".toList) (basename "core.clj").toList)) =
      ["<stdin>:3:5: Unmatched delimiter"] := by decide
  rw [hls, List.filterMap_cons,
    lineToError_matched region v (basename "core.clj") _ 3 5 "Unmatched delimiter"
      (by decide),
    List.filterMap_nil] at hpe
  refine ⟨_, hpe, by norm_num [mkMatchedError, h1], by norm_num [mkMatchedError],
    rfl, rfl⟩

/-- Witness for C1 (amended): the concrete view whose offset 10 sits at row
10, column 0. -/
theorem stdin_tag_one_error_witness :
    ∃ e, Error.parse_stderr "<stdin>:3:5: Unmatched delimiter" ⟨10, 25⟩ viewTen =
      Except.ok [e] ∧
      e.row = 12 ∧ e.col = 4 ∧ e.text = "Unmatched delimiter" ∧
      e.filename = "core.clj" :=
  stdin_tag_one_error viewTen ⟨10, 25⟩ rfl rfl

/-- C2: a diagnostic line parsed from the stderr whose raw row group is 1 —
row 0 after the 1-based-to-0-based conversion, i.e. the first line of the
piped sub-region — contributes an Error whose column is the converted raw
column offset by the region's starting column, and whose row is offset by the
region's starting row. -/
theorem first_line_col_offset (stderr : String) (region : Region) (v : View)
    (name : String) (errs : List Error) (raw : String) (c : Nat) (msg : String)
    (hf : v.fileName = some name)
    (hp : Error.parse_stderr stderr region v = Except.ok errs)
    (hraw : raw ∈ pySplitlines (String.mk (pyReplace stderr.toList
      ("<standard input>".toList) (basename name).toList)))
    (hm : matchLine raw = some (1, c, msg)) :
    ∃ e ∈ errs, e.col = ((c : Int) - 1) + ((v.rowcol region.begin).2 : Int) ∧
      e.row = ((v.rowcol region.begin).1 : Int) := by
  have heq := parse_stderr_eq stderr region v name hf
  rw [hp] at heq
  have herrs := Except.ok.inj heq
  have hE := lineToError_matched region v (basename name) raw 1 c msg hm
  refine ⟨mkMatchedError region v (basename name) 1 c msg, ?_, ?_, ?_⟩
  · rw [herrs]
    exact List.mem_filterMap.mpr ⟨raw, hraw, hE⟩
  · norm_num [mkMatchedError]
  · norm_num [mkMatchedError]

/-- Witness for C2: the line "<stdin>:1:3: boom" against a region starting at
row 0, column 1: reported column 3 = (3 - 1) + 1, reported row 0. -/
theorem first_line_col_offset_witness :
    ∃ e ∈ [err2W], e.col = (((3 : Nat) : Int) - 1) +
        ((viewCd.rowcol (Region.begin ⟨1, 4⟩)).2 : Int) ∧
      e.row = ((viewCd.rowcol (Region.begin ⟨1, 4⟩)).1 : Int) :=
  first_line_col_offset "<stdin>:1:3: boom" ⟨1, 4⟩ viewCd "t.clj" [err2W]
    "<stdin>:1:3: boom" 3 "boom" rfl rfl (by decide) rfl

/-- C3: a diagnostic line parsed from the stderr whose raw row group is not 1
— so its converted row is not the first line of the piped sub-region —
contributes an Error whose row is the region's starting row plus the
converted raw row, and whose column receives no offset from the region's
starting column: it is just the 1-based-to-0-based conversion of the raw
column. -/
theorem later_line_no_col_offset (stderr : String) (region : Region) (v : View)
    (name : String) (errs : List Error) (raw : String) (r c : Nat) (msg : String)
    (hf : v.fileName = some name)
    (hp : Error.parse_stderr stderr region v = Except.ok errs)
    (hraw : raw ∈ pySplitlines (String.mk (pyReplace stderr.toList
      ("<standard input>".toList) (basename name).toList)))
    (hm : matchLine raw = some (r, c, msg))
    (hr : r ≠ 1) :
    ∃ e ∈ errs, e.row = ((v.rowcol region.begin).1 : Int) + ((r : Int) - 1) ∧
      e.col = (c : Int) - 1 := by
  have heq := parse_stderr_eq stderr region v name hf
  rw [hp] at heq
  have herrs := Except.ok.inj heq
  have hE := lineToError_matched region v (basename name) raw r c msg hm
  have hne : ((r : Int) - 1) ≠ 0 := by
    intro h
    apply hr
    omega
  refine ⟨mkMatchedError region v (basename name) r c msg, ?_, ?_, ?_⟩
  · rw [herrs]
    exact List.mem_filterMap.mpr ⟨raw, hraw, hE⟩
  · simp only [mkMatchedError]
    ring
  · simp only [mkMatchedError]
    rw [if_neg hne]

/-- Witness for C3: the line "<stdin>:3:5: Unmatched delimiter" against a
region starting at row 10, column 0: reported row 12 = 10 + (3 - 1), reported
column 4 = 5 - 1 with no region offset. -/
theorem later_line_no_col_offset_witness :
    ∃ e ∈ [err3W], e.row = ((viewTen.rowcol (Region.begin ⟨10, 25⟩)).1 : Int) +
        (((3 : Nat) : Int) - 1) ∧
      e.col = ((5 : Nat) : Int) - 1 :=
  later_line_no_col_offset "<stdin>:3:5: Unmatched delimiter" ⟨10, 25⟩ viewTen
    "core.clj" [err3W] "<stdin>:3:5: Unmatched delimiter" 3 5 "Unmatched delimiter"
    rfl rfl (by decide) rfl (by decide)

end Cljpprint
